import Mathlib

/-!
Shallow embedding of the chatty-backend core: the error taxonomy and
serialization from the error-handler module, the centralized error
dispatcher and catch-all handler registered in `globalErrorHandler`, and
the bootstrap step sequence of `ChattyServer.start` / `startServer` /
`createSocketIO` in `setupServer.ts`.
-/

namespace Chatty

/-- Status-code constants of the http-status-codes package, as referenced
by the source (`HTTP_STATUS.BAD_REQUEST` and so on). -/
def BAD_REQUEST : Nat := 400

/-- Constant `HTTP_STATUS.NOT_FOUND`. -/
def NOT_FOUND : Nat := 404

/-- Constant `HTTP_STATUS.UNAUTHORIZED`. -/
def UNAUTHORIZED : Nat := 401

/-- Constant `HTTP_STATUS.REQUEST_TOO_LONG`. -/
def REQUEST_TOO_LONG : Nat := 413

/-- Constant `HTTP_STATUS.SERVICE_UNAVAILABLE`. -/
def SERVICE_UNAVAILABLE : Nat := 503

/-- The six concrete subclasses of `CustomError` in the error-handler
module, as a closed tag. -/
inductive FailureKind
  | badRequest
  | notFound
  | notAuthorized
  | fileTooLarge
  | server
  | joinValidation
deriving DecidableEq, Repr

/-- An instance of the abstract class `CustomError`: it carries the
`message` passed to the constructor (stored by `super(message)`) and the
tag of the concrete subclass, which determines the `statusCode` and
`status` fields the subclass declares. -/
structure CustomError where
  kind : FailureKind
  message : String
deriving DecidableEq, Repr

/-- The `statusCode` field declared by each concrete subclass:
`HTTP_STATUS.BAD_REQUEST` for `BadRequestError`, `HTTP_STATUS.NOT_FOUND`
for `NotFoundError`, `HTTP_STATUS.UNAUTHORIZED` for `NotAuthorizedError`,
`HTTP_STATUS.REQUEST_TOO_LONG` for `FileTooLargeError`, and
`HTTP_STATUS.SERVICE_UNAVAILABLE` for both `ServerError` and
`JoinValidationError`. -/
def CustomError.statusCode (e : CustomError) : Nat :=
  match e.kind with
  | .badRequest => BAD_REQUEST
  | .notFound => NOT_FOUND
  | .notAuthorized => UNAUTHORIZED
  | .fileTooLarge => REQUEST_TOO_LONG
  | .server => SERVICE_UNAVAILABLE
  | .joinValidation => SERVICE_UNAVAILABLE

/-- The `status` field declared by each concrete subclass; every one of
the six subclasses sets it to the literal string "error". -/
def CustomError.status (e : CustomError) : String :=
  match e.kind with
  | .badRequest => "error"
  | .notFound => "error"
  | .notAuthorized => "error"
  | .fileTooLarge => "error"
  | .server => "error"
  | .joinValidation => "error"

/-- The `IError` interface of the error-handler module: the wire shape
returned by `serializeErrors`. -/
structure IError where
  message : String
  statusCode : Nat
  status : String
deriving DecidableEq, Repr

/-- Method `CustomError.serializeErrors`: returns the object with the
instance fields `message`, `statusCode` and `status`. -/
def CustomError.serializeErrors (e : CustomError) : IError :=
  { message := e.message
    statusCode := e.statusCode
    status := e.status }

/-- Constructor of the `BadRequestError` subclass: stores the message and
fixes the kind tag; no validation is performed on the message. -/
def BadRequestError (message : String) : CustomError :=
  ⟨.badRequest, message⟩

/-- Constructor of the `NotFoundError` subclass. -/
def NotFoundError (message : String) : CustomError :=
  ⟨.notFound, message⟩

/-- Constructor of the `NotAuthorizedError` subclass. -/
def NotAuthorizedError (message : String) : CustomError :=
  ⟨.notAuthorized, message⟩

/-- Constructor of the `FileTooLargeError` subclass. -/
def FileTooLargeError (message : String) : CustomError :=
  ⟨.fileTooLarge, message⟩

/-- Constructor of the `ServerError` subclass. -/
def ServerError (message : String) : CustomError :=
  ⟨.server, message⟩

/-- Constructor of the `JoinValidationError` subclass. -/
def JoinValidationError (message : String) : CustomError :=
  ⟨.joinValidation, message⟩

/-- The part of an Express request the two tail handlers read: the
original URL of the request and its HTTP method (the catch-all is
registered with `app.all` and never inspects the method). -/
structure Request where
  originalUrl : String
  method : String
deriving DecidableEq, Repr

/-- The JSON body of a response sent by one of the two tail handlers:
either the plain object with a single `message` field built by the
catch-all, or a serialized `IError` built by the failure interceptor. -/
inductive ResponseBody
  | messageOnly (message : String)
  | errorBody (e : IError)
deriving DecidableEq, Repr

/-- A failure reaching the error-handling middleware: either an instance
of `CustomError` (recognized by the `instanceof` test) or any other
value. -/
inductive AppError
  | recognized (e : CustomError)
  | unrecognized (descr : String)
deriving DecidableEq, Repr

/-- An observable action of a tail handler, in the order it is
performed: a `log.error` call, a `res.status(...).json(...)` call, or a
call of the `next` continuation. -/
inductive Event
  | logged (err : AppError)
  | responded (statusCode : Nat) (body : ResponseBody)
  | passedToNext
deriving DecidableEq, Repr

/-- The error-handling middleware registered by `globalErrorHandler`:
it first calls `log.error(error)`, then, if the error is an instance of
`CustomError`, responds with `error.statusCode` and the body
`error.serializeErrors()`; otherwise it calls `next()`. The result is
the ordered list of observable actions. -/
def errorMiddleware (error : AppError) : List Event :=
  Event.logged error ::
    match error with
    | .recognized e =>
        [Event.responded e.statusCode (ResponseBody.errorBody e.serializeErrors)]
    | .unrecognized _ => [Event.passedToNext]

/-- The catch-all handler registered by `globalErrorHandler` with
`app.all` on the wildcard path: it responds with
`HTTP_STATUS.NOT_FOUND` and the body whose single `message` field is
the request's original URL followed by " not found". -/
def catchAllHandler (req : Request) : Event :=
  Event.responded NOT_FOUND (ResponseBody.messageOnly (req.originalUrl ++ " not found"))

/-- One step of the bootstrap sequence of `ChattyServer`, in source
order: the four wiring calls of `start`, then the steps of
`startServer`: creating the socket server bound to the HTTP server,
attempting the publish and subscribe connections, installing the redis
adapter, starting the HTTP listener, registering the connection
handlers, and the `log.error` call of the catch branch. -/
inductive BootStep
  | securityMiddleware
  | standardMiddleware
  | routeMiddleware
  | errorHandlers
  | createSocketServer
  | pubConnect
  | subConnect
  | adapterAttach
  | listenStart
  | socketConnectionAttach
  | logStartupError
deriving DecidableEq, Repr

/-- The environment the bootstrap runs against: whether the publish
client connection and the subscribe client connection to redis
succeed. -/
structure RedisEnv where
  pubOk : Bool
  subOk : Bool
deriving DecidableEq, Repr

/-- Trace of the `createSocketIO` method: it constructs the socket
server on the HTTP server, creates the pub client and its duplicate sub
client, awaits both connections with `Promise.all`, and only if both
succeed installs the redis adapter. Returns the ordered steps performed
and whether the method completed without throwing. -/
def createSocketIoSteps (env : RedisEnv) : List BootStep × Bool :=
  ([BootStep.createSocketServer, BootStep.pubConnect, BootStep.subConnect] ++
      (if env.pubOk && env.subOk then [BootStep.adapterAttach] else []),
    env.pubOk && env.subOk)

/-- Trace of the `startServer` method: inside a try block it awaits
`createSocketIO`, then calls `startHttpServer` (which starts the
listener) and `socketIOConnection` (which registers connection
handlers); any error thrown along the way jumps to the catch branch,
which logs it. -/
def startServerSteps (env : RedisEnv) : List BootStep :=
  let r := createSocketIoSteps env
  if r.2 then
    r.1 ++ [BootStep.listenStart, BootStep.socketConnectionAttach]
  else
    r.1 ++ [BootStep.logStartupError]

/-- Trace of the public `start` method: the four synchronous wiring
calls in source order, followed by the steps of `startServer`. -/
def startSteps (env : RedisEnv) : List BootStep :=
  [BootStep.securityMiddleware, BootStep.standardMiddleware,
    BootStep.routeMiddleware, BootStep.errorHandlers] ++ startServerSteps env

/-- The `maxAge` value passed to `cookieSession` in
`securityMiddleWare`, exactly as the source writes it. -/
def sessionCookieMaxAge : Nat := 24 * 7 * 360000

/-- C1: for every one of the six error classes and every message string,
`serializeErrors` returns exactly the object with that message, the
fixed status code of the class (400, 404, 401, 413, 503, 503
respectively) and status "error", independent of the message content. -/
theorem serializeErrors_fixed_per_kind (msg : String) :
    (BadRequestError msg).serializeErrors = ⟨msg, 400, "error"⟩ ∧
    (NotFoundError msg).serializeErrors = ⟨msg, 404, "error"⟩ ∧
    (NotAuthorizedError msg).serializeErrors = ⟨msg, 401, "error"⟩ ∧
    (FileTooLargeError msg).serializeErrors = ⟨msg, 413, "error"⟩ ∧
    (ServerError msg).serializeErrors = ⟨msg, 503, "error"⟩ ∧
    (JoinValidationError msg).serializeErrors = ⟨msg, 503, "error"⟩ :=
  ⟨rfl, rfl, rfl, rfl, rfl, rfl⟩

/-- C2: for every failure recognized as a `CustomError`, the error
interceptor responds with the failure's own `statusCode` and with body
equal to its `serializeErrors` projection, and every intercepted
failure, recognized or not, is logged as the first action, before any
response is sent. -/
theorem interceptor_dispatch (e : CustomError) :
    errorMiddleware (AppError.recognized e) =
      [Event.logged (AppError.recognized e),
        Event.responded e.statusCode (ResponseBody.errorBody e.serializeErrors)] ∧
    ∀ err : AppError, (errorMiddleware err).head? = some (Event.logged err) := by
  refine ⟨rfl, ?_⟩
  intro err
  cases err <;> rfl

/-- C3: for every request reaching the catch-all handler, whatever its
HTTP method, the response has status 404 and a body holding only a
message field equal to the original URL followed by " not found"; the
body is never a serialized `IError` of the failure hierarchy. -/
theorem catchAll_route_miss (req : Request) :
    catchAllHandler req =
      Event.responded 404 (ResponseBody.messageOnly (req.originalUrl ++ " not found")) ∧
    ∀ (s : Nat) (e : IError),
      catchAllHandler req ≠ Event.responded s (ResponseBody.errorBody e) := by
  refine ⟨rfl, ?_⟩
  intro s e h
  simp [catchAllHandler] at h

/-- C4: for every failure that is not a recognized `CustomError`, the
error interceptor logs it and then invokes the `next` continuation, and
no response event appears anywhere in its trace. -/
theorem interceptor_unrecognized_passthrough (d : String) :
    errorMiddleware (AppError.unrecognized d) =
      [Event.logged (AppError.unrecognized d), Event.passedToNext] ∧
    ∀ (s : Nat) (b : ResponseBody),
      Event.responded s b ∉ errorMiddleware (AppError.unrecognized d) := by
  refine ⟨rfl, ?_⟩
  intro s b h
  simp [errorMiddleware] at h

/-- C5 counterexample: constructing `BadRequestError` with the empty
message string is not rejected; it succeeds and yields a fully formed
instance whose serialization carries the empty message. -/
theorem empty_message_construction_succeeds :
    (BadRequestError "").serializeErrors = ⟨"", 400, "error"⟩ :=
  rfl

/-- C5 (amended): construction of each of the six error classes accepts
any message string, including the empty string, storing it unchanged;
statusCode and status are fixed per class and never caller-supplied. -/
theorem construction_accepts_any_message (msg : String) :
    ((BadRequestError msg).message = msg ∧
      (BadRequestError msg).statusCode = 400 ∧ (BadRequestError msg).status = "error") ∧
    ((NotFoundError msg).message = msg ∧
      (NotFoundError msg).statusCode = 404 ∧ (NotFoundError msg).status = "error") ∧
    ((NotAuthorizedError msg).message = msg ∧
      (NotAuthorizedError msg).statusCode = 401 ∧ (NotAuthorizedError msg).status = "error") ∧
    ((FileTooLargeError msg).message = msg ∧
      (FileTooLargeError msg).statusCode = 413 ∧ (FileTooLargeError msg).status = "error") ∧
    ((ServerError msg).message = msg ∧
      (ServerError msg).statusCode = 503 ∧ (ServerError msg).status = "error") ∧
    ((JoinValidationError msg).message = msg ∧
      (JoinValidationError msg).statusCode = 503 ∧ (JoinValidationError msg).status = "error") :=
  ⟨⟨rfl, rfl, rfl⟩, ⟨rfl, rfl, rfl⟩, ⟨rfl, rfl, rfl⟩,
    ⟨rfl, rfl, rfl⟩, ⟨rfl, rfl, rfl⟩, ⟨rfl, rfl, rfl⟩⟩

/-- C6 counterexample: in the successful bootstrap trace both the
adapter attachment and the listener start occur, but the listener start
does not precede the adapter attachment, contradicting the claimed
order listener start, then gateway attach, then adapter attach. -/
theorem listener_not_started_before_adapter :
    BootStep.adapterAttach ∈ startSteps ⟨true, true⟩ ∧
    BootStep.listenStart ∈ startSteps ⟨true, true⟩ ∧
    ¬ ((startSteps ⟨true, true⟩).indexOf BootStep.listenStart <
        (startSteps ⟨true, true⟩).indexOf BootStep.adapterAttach) := by
  decide

/-- C6 (amended): when both channel connections succeed, the bootstrap
performs, in order, security wiring, standard wiring, route wiring,
error wiring, socket-server creation, the publish and subscribe
connections, adapter attachment, listener start, and connection-handler
attachment; in particular the adapter is attached before the network
listener is started. -/
theorem bootstrap_order (env : RedisEnv)
    (hp : env.pubOk = true) (hs : env.subOk = true) :
    startSteps env =
      [BootStep.securityMiddleware, BootStep.standardMiddleware,
        BootStep.routeMiddleware, BootStep.errorHandlers,
        BootStep.createSocketServer, BootStep.pubConnect, BootStep.subConnect,
        BootStep.adapterAttach, BootStep.listenStart,
        BootStep.socketConnectionAttach] := by
  simp [startSteps, startServerSteps, createSocketIoSteps, hp, hs]

/-- C6 witness: the amended bootstrap order evaluated at the concrete
environment where both connections succeed. -/
theorem bootstrap_order_witness :
    startSteps ⟨true, true⟩ =
      [BootStep.securityMiddleware, BootStep.standardMiddleware,
        BootStep.routeMiddleware, BootStep.errorHandlers,
        BootStep.createSocketServer, BootStep.pubConnect, BootStep.subConnect,
        BootStep.adapterAttach, BootStep.listenStart,
        BootStep.socketConnectionAttach] :=
  bootstrap_order ⟨true, true⟩ rfl rfl

/-- C7: if the publish connection or the subscribe connection fails, the
bootstrap never starts the HTTP listener, never registers the connection
handlers, never attaches the adapter, and logs the fatal cause. -/
theorem bootstrap_fails_fast (env : RedisEnv)
    (h : env.pubOk = false ∨ env.subOk = false) :
    BootStep.listenStart ∉ startSteps env ∧
    BootStep.socketConnectionAttach ∉ startSteps env ∧
    BootStep.adapterAttach ∉ startSteps env ∧
    BootStep.logStartupError ∈ startSteps env := by
  rcases env with ⟨p, s⟩
  revert h
  cases p <;> cases s <;> decide

/-- C7 witness: the fail-fast property evaluated at the concrete
environment where the publish connection fails. -/
theorem bootstrap_fails_fast_witness :
    BootStep.listenStart ∉ startSteps ⟨false, true⟩ ∧
    BootStep.socketConnectionAttach ∉ startSteps ⟨false, true⟩ ∧
    BootStep.adapterAttach ∉ startSteps ⟨false, true⟩ ∧
    BootStep.logStartupError ∈ startSteps ⟨false, true⟩ :=
  bootstrap_fails_fast ⟨false, true⟩ (Or.inl rfl)

/-- C8: the adapter is attached only when both the publish and the
subscribe connections succeeded, and in the trace both connection
attempts precede the adapter attachment. -/
theorem adapter_after_both_links (env : RedisEnv)
    (h : BootStep.adapterAttach ∈ startSteps env) :
    env.pubOk = true ∧ env.subOk = true ∧
    (startSteps env).indexOf BootStep.pubConnect <
      (startSteps env).indexOf BootStep.adapterAttach ∧
    (startSteps env).indexOf BootStep.subConnect <
      (startSteps env).indexOf BootStep.adapterAttach := by
  rcases env with ⟨p, s⟩
  revert h
  cases p <;> cases s <;> decide

/-- C8 witness: the adapter-ordering property evaluated at the concrete
environment where both connections succeed. -/
theorem adapter_after_both_links_witness :
    (⟨true, true⟩ : RedisEnv).pubOk = true ∧
    (⟨true, true⟩ : RedisEnv).subOk = true ∧
    (startSteps ⟨true, true⟩).indexOf BootStep.pubConnect <
      (startSteps ⟨true, true⟩).indexOf BootStep.adapterAttach ∧
    (startSteps ⟨true, true⟩).indexOf BootStep.subConnect <
      (startSteps ⟨true, true⟩).indexOf BootStep.adapterAttach :=
  adapter_after_both_links ⟨true, true⟩ (by decide)

/-- C9: serialization is a pure total function of the instance's
immutable fields: repeated calls on the same instance agree, the output
is exactly the projection of the stored message, status code and status,
and any two instances with equal fields serialize identically. -/
theorem serializeErrors_pure_idempotent (e₁ e₂ : CustomError)
    (hk : e₁.kind = e₂.kind) (hm : e₁.message = e₂.message) :
    e₁.serializeErrors = e₁.serializeErrors ∧
    e₁.serializeErrors = ⟨e₁.message, e₁.statusCode, e₁.status⟩ ∧
    e₁.serializeErrors = e₂.serializeErrors := by
  have he : e₁ = e₂ := by
    cases e₁; cases e₂; simp_all
  subst he
  exact ⟨rfl, rfl, rfl⟩

/-- C9 witness: the purity property evaluated at a concrete
`ServerError` instance. -/
theorem serializeErrors_pure_idempotent_witness :
    (ServerError "boom").serializeErrors = (ServerError "boom").serializeErrors ∧
    (ServerError "boom").serializeErrors =
      ⟨(ServerError "boom").message, (ServerError "boom").statusCode,
        (ServerError "boom").status⟩ ∧
    (ServerError "boom").serializeErrors = (ServerError "boom").serializeErrors :=
  serializeErrors_pure_idempotent (ServerError "boom") (ServerError "boom") rfl rfl

/-- C10: the session cookie max age written as 24 * 7 * 360000 equals
60480000 milliseconds, which is 16.8 hours exactly, and differs from the
604800000 milliseconds of a full seven days. -/
theorem sessionCookieMaxAge_value :
    sessionCookieMaxAge = 60480000 ∧
    sessionCookieMaxAge ≠ 604800000 ∧
    sessionCookieMaxAge * 10 = 168 * 3600000 := by
  decide

end Chatty
